import Mathlib

/-!
Verification of the UK stock analyzer core (stock_analyzer.py, groq_analyzer.py).

The embedding models the numeric values flowing through the pandas pipeline
as `EF`: either an exact rational or one of the IEEE special values NaN /
+inf / -inf.  All inputs (close prices, volumes) are exact rationals; the
special values arise only from division, mirroring numpy float semantics for
the operations the source performs.  Exceptions (IndexError from `iloc`,
NameError from an unbound name, ValueError / TypeError / AttributeError in
the validator) are modelled with `Except PyErr`.
-/

attribute [local semireducible] Rat.add Rat.mul Rat.inv Rat.sub

deriving instance DecidableEq for Except

/-- A Python float value: an exact rational, or NaN, or a signed infinity.
Rational arithmetic stands in for float64; the verified scenarios use exact
decimal data so no rounding discrepancy arises. -/
inductive EF where
  | nan : EF
  | pinf : EF
  | ninf : EF
  | fin (q : ℚ) : EF
deriving DecidableEq, Repr, Inhabited

namespace EF

/-- IEEE-style addition on `EF` (NaN propagates; inf + (-inf) = NaN). -/
def add : EF → EF → EF
  | nan, _ => nan
  | _, nan => nan
  | pinf, ninf => nan
  | ninf, pinf => nan
  | pinf, _ => pinf
  | _, pinf => pinf
  | ninf, _ => ninf
  | _, ninf => ninf
  | fin a, fin b => fin (a + b)

/-- Negation on `EF`. -/
def neg : EF → EF
  | nan => nan
  | pinf => ninf
  | ninf => pinf
  | fin a => fin (-a)

/-- Subtraction on `EF`. -/
def sub (a b : EF) : EF := add a (neg b)

/-- IEEE-style multiplication on `EF` (0 * inf = NaN). -/
def mul : EF → EF → EF
  | nan, _ => nan
  | _, nan => nan
  | pinf, pinf => pinf
  | pinf, ninf => ninf
  | ninf, pinf => ninf
  | ninf, ninf => pinf
  | pinf, fin b => if b = 0 then nan else if 0 < b then pinf else ninf
  | fin a, pinf => if a = 0 then nan else if 0 < a then pinf else ninf
  | ninf, fin b => if b = 0 then nan else if 0 < b then ninf else pinf
  | fin a, ninf => if a = 0 then nan else if 0 < a then ninf else pinf
  | fin a, fin b => fin (a * b)

/-- IEEE-style division on `EF`: 0/0 = NaN, x/0 = ±inf for x ≠ 0 (numpy
float division does not raise ZeroDivisionError), x/±inf = 0.
There is no signed zero in this model. -/
def div : EF → EF → EF
  | nan, _ => nan
  | _, nan => nan
  | pinf, pinf => nan
  | pinf, ninf => nan
  | ninf, pinf => nan
  | ninf, ninf => nan
  | pinf, fin b => if 0 ≤ b then pinf else ninf
  | ninf, fin b => if 0 ≤ b then ninf else pinf
  | fin _, pinf => fin 0
  | fin _, ninf => fin 0
  | fin a, fin b =>
      if b = 0 then (if a = 0 then nan else if 0 < a then pinf else ninf)
      else fin (a / b)

/-- The comparison `v > 0` as Python evaluates it: NaN compares False. -/
def gt0 : EF → Bool
  | fin q => decide (0 < q)
  | pinf => true
  | _ => false

/-- The comparison `v < 0` as Python evaluates it: NaN compares False. -/
def lt0 : EF → Bool
  | fin q => decide (q < 0)
  | ninf => true
  | _ => false

/-- Whether the value is an ordinary (finite, non-NaN) number. -/
def isFin : EF → Bool
  | fin _ => true
  | _ => false

/-- The rational content of a finite value (0 on the special values; only
applied to values already known finite). -/
def toQ : EF → ℚ
  | fin q => q
  | _ => 0

end EF

/-- Python exception kinds the embedded code can raise. -/
inductive PyErr where
  | indexError : PyErr
  | nameError : PyErr
  | valueError : PyErr
  | typeError : PyErr
  | attributeError : PyErr
deriving DecidableEq, Repr, Inhabited

/-- One OHLCV bar.  The engine reads only the Close and Volume columns, so
only those are modelled. -/
structure Bar where
  close : ℚ
  volume : ℚ
deriving DecidableEq, Repr, Inhabited

/-- pandas `Series.diff()`: first element NaN, then successive differences. -/
def pdDiff (xs : List ℚ) : List EF :=
  (List.range xs.length).map (fun i =>
    if i = 0 then EF.nan else EF.fin (xs.getD i 0 - xs.getD (i - 1) 0))

/-- The trailing window of width `w` ending at index `i` (pandas rolling
window contents; shorter than `w` near the front of the series). -/
def windowSlice {α : Type} (w i : Nat) (xs : List α) : List α :=
  (xs.take (i + 1)).drop (i + 1 - w)

/-- pandas `rolling(window=w).mean()` at index `i`, with the default
`min_periods = w`: NaN until `w` rows exist, NaN whenever the window holds a
non-finite entry (a NaN in the window keeps the count below `min_periods`;
infinite entries never occur in this pipeline). -/
def rollingAt (w : Nat) (xs : List EF) (i : Nat) : EF :=
  if i + 1 < w then EF.nan
  else
    let win := windowSlice w i xs
    if win.all EF.isFin then EF.fin (((win.map EF.toQ).sum) / (w : ℚ))
    else EF.nan

/-- pandas `rolling(window=w).mean()` over a series of `EF` values. -/
def rollingMean (w : Nat) (xs : List EF) : List EF :=
  (List.range xs.length).map (rollingAt w xs)

/-- pandas `rolling(window=w).mean()` over an all-finite series. -/
def rollingMeanQ (w : Nat) (xs : List ℚ) : List EF :=
  (List.range xs.length).map (fun i =>
    if i + 1 < w then EF.nan
    else EF.fin ((windowSlice w i xs).sum / (w : ℚ)))

/-- Floor square root of a natural number, written as a fold so that it
reduces by kernel computation. -/
def natSqrtK (n : Nat) : Nat :=
  (List.range (n + 1)).foldl (fun a k => if k * k ≤ n then k else a) 0

/-- Rational square root in the style of `Rat.sqrt` (floor square root of
numerator and denominator).  It is exact precisely when the radicand is
the square of a rational, which holds in every scenario the theorems below
evaluate (the variance there is 0). -/
def ratSqrtK (q : ℚ) : ℚ := mkRat (Int.ofNat (natSqrtK q.num.toNat)) (natSqrtK q.den)

/-- pandas `rolling(window=w).std()` (sample standard deviation, ddof = 1)
over an all-finite series; see `ratSqrtK` for the square-root model. -/
def rollingStd (w : Nat) (xs : List ℚ) : List EF :=
  (List.range xs.length).map (fun i =>
    if i + 1 < w then EF.nan
    else
      let win := windowSlice w i xs
      let m := win.sum / (w : ℚ)
      EF.fin (ratSqrtK ((win.map (fun x => (x - m) ^ 2)).sum / ((w : ℚ) - 1))))

/-- pandas `ewm(span=s).mean()` with the default `adjust=True` and
`min_periods=0`: the weighted average of the history with weights
`(1-α)^k`, `α = 2/(s+1)`. -/
def ewmMean (span : ℚ) (xs : List ℚ) : List ℚ :=
  let β := 1 - 2 / (span + 1)
  (List.range xs.length).map (fun i =>
    (((List.range (i + 1)).map (fun j => β ^ (i - j) * xs.getD j 0)).sum) /
      (((List.range (i + 1)).map (fun j => β ^ j)).sum))

/-- pandas `.iloc[-k]` on a series: the element `k` from the end, raising
IndexError when the series has fewer than `k` rows. -/
def ilocNegQ (xs : List ℚ) (k : Nat) : Except PyErr ℚ :=
  if k ≤ xs.length ∧ 0 < k then Except.ok (xs.getD (xs.length - k) 0)
  else Except.error PyErr.indexError

/-- The last element of a list, or a default: models
`s.iloc[-1] if not s.empty else d`. -/
def lastD {α : Type} (xs : List α) (d : α) : α := xs.getLast?.getD d

/-- Source line 35: `delta = df['Close'].diff()`. -/
def deltaSeries (close : List ℚ) : List EF := pdDiff close

/-- Source line 36 before rolling: `delta.where(delta > 0, 0)`; the leading
NaN compares False against 0 and is replaced by 0. -/
def gainElems (close : List ℚ) : List EF :=
  (deltaSeries close).map (fun v => if v.gt0 then v else EF.fin 0)

/-- Source line 37 before rolling: `-delta.where(delta < 0, 0)`. -/
def lossElems (close : List ℚ) : List EF :=
  (deltaSeries close).map (fun v => EF.neg (if v.lt0 then v else EF.fin 0))

/-- Source line 36: `gain = (delta.where(delta > 0, 0)).rolling(window=14).mean()`. -/
def gainSeries (close : List ℚ) : List EF := rollingMean 14 (gainElems close)

/-- Source line 37: `loss = (-delta.where(delta < 0, 0)).rolling(window=14).mean()`. -/
def lossSeries (close : List ℚ) : List EF := rollingMean 14 (lossElems close)

/-- Source line 38: `rs = gain / loss` (elementwise float division). -/
def rsSeries (close : List ℚ) : List EF :=
  List.zipWith EF.div (gainSeries close) (lossSeries close)

/-- Source line 39: `rsi = 100 - (100 / (1 + rs))`. -/
def rsiSeries (close : List ℚ) : List EF :=
  (rsSeries close).map (fun r =>
    EF.sub (EF.fin 100) (EF.div (EF.fin 100) (EF.add (EF.fin 1) r)))

/-- Source line 44: `macd = exp1 - exp2` with `exp1 = ewm(span=12)`,
`exp2 = ewm(span=26)` of close. -/
def macdSeries (close : List ℚ) : List ℚ :=
  List.zipWith (fun a b => a - b) (ewmMean 12 close) (ewmMean 26 close)

/-- Source line 45: `signal = macd.ewm(span=9).mean()`. -/
def signalSeries (close : List ℚ) : List ℚ := ewmMean 9 (macdSeries close)

/-- The fixed indicator record returned by the engine (source lines 67-78). -/
structure IndicatorRecord where
  rsi : EF
  macd : EF
  macd_signal : EF
  sma_20 : EF
  sma_50 : EF
  bb_position : EF
  volume_ratio : EF
  price_change_5d : EF
  price_change_20d : EF
  current_price : EF
deriving DecidableEq, Repr, Inhabited

/-- Result of `calculate_technical_indicators`: the empty dict for
None/empty input, or the full 10-field record. -/
inductive TechOutput where
  | empty : TechOutput
  | record (r : IndicatorRecord) : TechOutput
deriving DecidableEq, Repr, Inhabited

/-- The body of `calculate_technical_indicators` for a non-empty frame
(source lines 34-78).  Lines 64-65 index `iloc[-6]` and `iloc[-21]` without
a length guard, so the computation raises IndexError when the series is
shorter than 21 bars; everything before those lines is total. -/
def indicatorRecordOf (bars : List Bar) : Except PyErr IndicatorRecord :=
  let close := bars.map Bar.close
  let volume := bars.map Bar.volume
  let sma_20 := rollingMeanQ 20 close
  let sma_50 := rollingMeanQ 50 close
  let sma := rollingMeanQ 20 close
  let std := rollingStd 20 close
  let bb_upper := List.zipWith EF.add sma (std.map (fun s => EF.mul s (EF.fin 2)))
  let bb_lower := List.zipWith EF.sub sma (std.map (fun s => EF.mul s (EF.fin 2)))
  let avg_volume := rollingMeanQ 20 volume
  let volume_ratio :=
    if avg_volume.isEmpty then EF.fin 0
    else EF.div (EF.fin (lastD volume 0)) (lastD avg_volume EF.nan)
  match ilocNegQ close 6, ilocNegQ close 21 with
  | Except.ok c6, Except.ok c21 =>
      Except.ok {
        rsi := lastD (rsiSeries close) (EF.fin 0),
        macd := if (macdSeries close).isEmpty then EF.fin 0
                else EF.fin (lastD (macdSeries close) 0),
        macd_signal := if (signalSeries close).isEmpty then EF.fin 0
                       else EF.fin (lastD (signalSeries close) 0),
        sma_20 := lastD sma_20 (EF.fin 0),
        sma_50 := lastD sma_50 (EF.fin 0),
        bb_position :=
          if bb_upper.isEmpty then EF.fin 0
          else EF.div (EF.sub (EF.fin (lastD close 0)) (lastD bb_lower EF.nan))
                      (EF.sub (lastD bb_upper EF.nan) (lastD bb_lower EF.nan)),
        volume_ratio := volume_ratio,
        price_change_5d :=
          EF.mul (EF.div (EF.fin (lastD close 0 - c6)) (EF.fin c6)) (EF.fin 100),
        price_change_20d :=
          EF.mul (EF.div (EF.fin (lastD close 0 - c21)) (EF.fin c21)) (EF.fin 100),
        current_price := EF.fin (lastD close 0) }
  | Except.error e, _ => Except.error e
  | Except.ok _, Except.error e => Except.error e

/-- Embedding of `StockAnalyzer.calculate_technical_indicators` (source lines 29-78):
returns the empty dict when the frame is None or empty, otherwise computes
the indicator record (or raises, see `indicatorRecordOf`). -/
def calculate_technical_indicators (df : Option (List Bar)) :
    Except PyErr TechOutput :=
  match df with
  | none => Except.ok TechOutput.empty
  | some bars =>
      if bars.isEmpty then Except.ok TechOutput.empty
      else (indicatorRecordOf bars).map TechOutput.record

/-- Company metadata from the fetcher (`stock.info`): the keys
`analyze_stock` reads, each possibly absent. -/
structure InfoRec where
  longName : Option String
  marketCap : Option ℚ
  sector : Option String
deriving DecidableEq, Repr, Inhabited

/-- Sentiment record from `get_stock_news_sentiment`; that helper catches
every exception internally and always returns a record, so it is modelled
as an opaque total collaborator function. -/
structure SentimentRecord where
  sentiment_score : ℚ
  news_count : Nat
deriving DecidableEq, Repr, Inhabited

/-- Per-symbol analysis record assembled at source lines 158-166. -/
structure AnalysisRecord where
  symbol : String
  company_name : String
  analysis_date : String
  technical_indicators : TechOutput
  sentiment : SentimentRecord
  market_cap : ℚ
  sector : String
deriving DecidableEq, Repr, Inhabited

/-- The `(hist, info)` pair `get_stock_data` produces: `(None, None)` on a
fetch failure, otherwise the series (possibly empty) and metadata. -/
def FetchFun : Type := String → Option (List Bar) × Option InfoRec

/-- Embedding of `StockAnalyzer.analyze_stock` (source lines 138-168), with the external
collaborators (series fetcher, sentiment estimator, wall clock) passed as
parameters.  Returns `ok none` when the fetched history is None or empty;
propagates any exception raised by the indicator computation. -/
def analyze_stock (fetch : FetchFun)
    (sentiment : String → String → SentimentRecord) (today : String)
    (symbol : String) : Except PyErr (Option AnalysisRecord) :=
  let fr := fetch symbol
  match fr.1 with
  | none => Except.ok none
  | some bars =>
      if bars.isEmpty then Except.ok none
      else
        match calculate_technical_indicators (some bars) with
        | Except.error e => Except.error e
        | Except.ok technical_data =>
            let company_name :=
              match fr.2 with
              | some info => info.longName.getD symbol
              | none => symbol
            Except.ok (some {
              symbol := symbol,
              company_name := company_name,
              analysis_date := today,
              technical_indicators := technical_data,
              sentiment := sentiment symbol company_name,
              market_cap := match fr.2 with
                            | some info => info.marketCap.getD 0
                            | none => 0,
              sector := match fr.2 with
                        | some info => info.sector.getD "Unknown"
                        | none => "Unknown" })

/-- Embedding of `StockAnalyzer.analyze_multiple_stocks` (source lines 170-183): appends
the record of each symbol whose analysis returned a truthy result, catching
any per-symbol exception and continuing. -/
def analyze_multiple_stocks (fetch : FetchFun)
    (sentiment : String → String → SentimentRecord) (today : String) :
    List String → List AnalysisRecord
  | [] => []
  | s :: rest =>
      match analyze_stock fetch sentiment today s with
      | Except.ok (some r) => r :: analyze_multiple_stocks fetch sentiment today rest
      | _ => analyze_multiple_stocks fetch sentiment today rest

/-- The per-symbol success view of `analyze_stock`: the record when the
analysis returned one, `none` when it returned None or raised. -/
def successRecord (fetch : FetchFun)
    (sentiment : String → String → SentimentRecord) (today : String)
    (symbol : String) : Option AnalysisRecord :=
  match analyze_stock fetch sentiment today symbol with
  | Except.ok (some r) => some r
  | _ => none

/-- A JSON-like value as handled by `validate_recommendations`: the
untrusted candidate dict, its pick dicts and their field values. -/
inductive JVal where
  | num (q : ℚ) : JVal
  | bool (b : Bool) : JVal
  | str (s : String) : JVal
  | null : JVal
  | arr (xs : List JVal) : JVal
  | obj (fields : List (String × JVal)) : JVal

/-- Python dict lookup `d.get(k)` as an Option (first binding wins). -/
def dictGet (d : List (String × JVal)) (k : String) : Option JVal :=
  (d.find? (fun p => p.1 == k)).map Prod.snd

/-- Python dict lookup `d.get(k, default)`. -/
def dictGetD (d : List (String × JVal)) (k : String) (dflt : JVal) : JVal :=
  (dictGet d k).getD dflt

/-- Digits-only string to Nat. -/
def digitsToNat (cs : List Char) : Option Nat :=
  if cs.isEmpty then none
  else if cs.all Char.isDigit then
    some (cs.foldl (fun a c => 10 * a + (c.toNat - 48)) 0)
  else none

/-- Unsigned decimal numeral, with an optional decimal point. -/
def parseUnsigned (cs : List Char) : Option ℚ :=
  match cs.splitOn '.' with
  | [intPart] => (digitsToNat intPart).map (fun n => (n : ℚ))
  | [intPart, fracPart] =>
      if intPart.isEmpty ∧ fracPart.isEmpty then none
      else
        match (if intPart.isEmpty then some 0 else digitsToNat intPart),
              (if fracPart.isEmpty then some 0 else digitsToNat fracPart) with
        | some ip, some fp =>
            some ((ip : ℚ) + (fp : ℚ) / ((10 : ℚ) ^ fracPart.length))
        | _, _ => none
  | _ => none

/-- The numeric strings Python `float()` accepts, restricted to plain
signed decimals (the exponent / inf / nan spellings never occur in the
scenarios exercised here; a non-numeric string such as N/A yields none). -/
def parseDecimal (s : String) : Option ℚ :=
  match s.toList with
  | [] => none
  | c :: rest =>
      if c = '-' then (parseUnsigned rest).map Neg.neg
      else if c = '+' then parseUnsigned rest
      else parseUnsigned (c :: rest)

/-- Python `float(v)`: numbers and bools coerce, numeric strings parse
(ValueError otherwise), and any other type raises TypeError. -/
def pyFloat : JVal → Except PyErr ℚ
  | JVal.num q => Except.ok q
  | JVal.bool b => Except.ok (if b then 1 else 0)
  | JVal.str s =>
      match parseDecimal s with
      | some q => Except.ok q
      | none => Except.error PyErr.valueError
  | _ => Except.error PyErr.typeError

/-- The body of the validator loop for one pick dict (source lines
174-185): the dict literal evaluates `float(pick.get('target_price', 0))`
then `float(pick.get('confidence_score', 0))`; only these two coercions can
raise, and only ValueError or TypeError. -/
def validate_pick (pick : List (String × JVal)) :
    Except PyErr (List (String × JVal)) :=
  match pyFloat (dictGetD pick "target_price" (JVal.num 0)) with
  | Except.error e => Except.error e
  | Except.ok tp =>
      match pyFloat (dictGetD pick "confidence_score" (JVal.num 0)) with
      | Except.error e => Except.error e
      | Except.ok cs =>
          Except.ok [
            ("rank", dictGetD pick "rank" (JVal.num 0)),
            ("symbol", dictGetD pick "symbol" (JVal.str "")),
            ("company_name", dictGetD pick "company_name" (JVal.str "")),
            ("recommendation", dictGetD pick "recommendation" (JVal.str "HOLD")),
            ("target_price", JVal.num tp),
            ("confidence_score", JVal.num cs),
            ("key_reasons", dictGetD pick "key_reasons" (JVal.arr [])),
            ("risk_level", dictGetD pick "risk_level" (JVal.str "MEDIUM")),
            ("time_horizon", dictGetD pick "time_horizon" (JVal.str "1-3 days")),
            ("expected_return", dictGetD pick "expected_return" (JVal.str "0%"))]

/-- The validator loop (source lines 171-189): `except (ValueError,
TypeError)` skips a pick whose coercion failed (those are the only errors
`validate_pick` produces, so the catch-all match is faithful), while a
non-dict pick raises AttributeError at `pick.get`, which is not caught. -/
def pickLoop : List JVal → Except PyErr (List (List (String × JVal)))
  | [] => Except.ok []
  | p :: rest =>
      match p with
      | JVal.obj fields =>
          match validate_pick fields with
          | Except.ok v => (pickLoop rest).map (fun vs => v :: vs)
          | Except.error _ => pickLoop rest
      | _ => Except.error PyErr.attributeError

/-- Embedding of `GroqStockAnalyzer.validate_recommendations` (source lines 166-197).
Returns None for a falsy or key-less candidate.  Otherwise it slices
`recommendations['top_10_picks'][:10]` (slicing a non-list, non-string
value raises TypeError; slicing a string yields its characters, whose
`.get` raises AttributeError unless the string is empty), runs the loop,
and then evaluates the return dict at lines 191-197 — whose
`analysis_timestamp` entry reads the name `stock_data`, which is unbound in
this scope, so reaching it raises NameError. -/
def validate_recommendations (recommendations : Option (List (String × JVal))) :
    Except PyErr (Option (List (String × JVal))) :=
  match recommendations with
  | none => Except.ok none
  | some recs =>
      if recs.isEmpty then Except.ok none
      else
        match dictGet recs "top_10_picks" with
        | none => Except.ok none
        | some v =>
            match v with
            | JVal.arr picks =>
                match pickLoop (picks.take 10) with
                | Except.ok _validated => Except.error PyErr.nameError
                | Except.error e => Except.error e
            | JVal.str s =>
                if s.isEmpty then Except.error PyErr.nameError
                else Except.error PyErr.attributeError
            | _ => Except.error PyErr.typeError

/-- A constant series: `n` bars at close price `c` and volume `v`. -/
def constBars (n : Nat) (c v : ℚ) : List Bar :=
  List.replicate n { close := c, volume := v }

/-- A strictly decreasing series: closes 200, 199, 198, ... at volume 1000. -/
def decBars (n : Nat) : List Bar :=
  (List.range n).map (fun i => { close := (200 : ℚ) - i, volume := 1000 })

/-- Extract the indicator record from a successful engine run (for stating
field-level facts about a computed record). -/
def recOfCalc (e : Except PyErr TechOutput) : IndicatorRecord :=
  match e with
  | Except.ok (TechOutput.record r) => r
  | _ => default

/-- C1: the spec says the engine, given at least one bar, always returns an
Indicator Record and never raises for short series.  The code violates
this: `df['Close'].iloc[-6]` and `iloc[-21]` (source lines 64-65) are
evaluated without a length guard, so every series of fewer than 21 bars
raises IndexError (shown here at 1 and at 20 bars); only from 21 bars on
does a record come back. -/
theorem c1_short_series_raises :
    calculate_technical_indicators (some (constBars 1 100 1000)) =
      Except.error PyErr.indexError ∧
    calculate_technical_indicators (some (constBars 20 100 1000)) =
      Except.error PyErr.indexError ∧
    calculate_technical_indicators (some (constBars 21 100 1000)) =
      Except.ok (TechOutput.record
        (recOfCalc (calculate_technical_indicators (some (constBars 21 100 1000))))) := by
  refine ⟨by decide, by decide, ?_⟩
  set_option maxRecDepth 100000 in decide

/-- C2: the spec says an indicator whose rolling window has insufficient
history is exactly 0.  The code violates this twice over: a series of 13
bars (shorter than the RSI window of 14) raises IndexError at source line
64 instead of returning rsi = 0, and a 25-bar series (shorter than the
SMA-50 window) returns sma_50 = NaN — the `if not sma_50.empty else 0`
guard at source line 72 tests series emptiness, which never holds for a
non-empty frame, so the NaN from the unfilled window propagates. -/
theorem c2_insufficient_window_not_zero :
    calculate_technical_indicators (some (constBars 13 100 1000)) =
      Except.error PyErr.indexError ∧
    (recOfCalc (calculate_technical_indicators (some (constBars 25 100 1000)))).sma_50 =
      EF.nan ∧
    calculate_technical_indicators (some (constBars 25 100 1000)) =
      Except.ok (TechOutput.record
        (recOfCalc (calculate_technical_indicators (some (constBars 25 100 1000))))) := by
  refine ⟨by decide, ?_, ?_⟩
  · set_option maxRecDepth 100000 in decide
  · set_option maxRecDepth 100000 in decide

/-- C3: the spec scenario for 25 constant-price bars expects rsi = 0 and
sma_50 = 0.  The code instead produces rsi = NaN (zero gain and zero loss
give rs = 0/0 = NaN, and the `else 0` guard never fires on a non-empty
series) and sma_50 = NaN (unfilled 50-bar window); sma_20 = 100,
volume_ratio = 1, the price changes 0 and current_price = 100 do match,
and bb_position is NaN (zero band width, 0/0). -/
theorem c3_constant_series_record :
    calculate_technical_indicators (some (constBars 25 100 1000)) =
      Except.ok (TechOutput.record {
        rsi := EF.nan,
        macd := EF.fin 0,
        macd_signal := EF.fin 0,
        sma_20 := EF.fin 100,
        sma_50 := EF.nan,
        bb_position := EF.nan,
        volume_ratio := EF.fin 1,
        price_change_5d := EF.fin 0,
        price_change_20d := EF.fin 0,
        current_price := EF.fin 100 }) := by
  set_option maxRecDepth 100000 in decide

/-- C10: a None frame and an empty frame both yield the empty mapping from
the indicator engine (source lines 31-32), and `analyze_stock` returns
None — skipping the symbol before any indicator computation — whenever the
fetched history is None or empty (source lines 145-146). -/
theorem c10_none_or_empty_skipped :
    calculate_technical_indicators none = Except.ok TechOutput.empty ∧
    calculate_technical_indicators (some []) = Except.ok TechOutput.empty ∧
    ∀ (fetch : FetchFun) (sentiment : String → String → SentimentRecord)
      (today symbol : String),
      ((fetch symbol).1 = none ∨ (fetch symbol).1 = some []) →
      analyze_stock fetch sentiment today symbol = Except.ok none := by
  refine ⟨rfl, rfl, ?_⟩
  intro fetch sentiment today symbol h
  rcases h with h | h <;> simp [analyze_stock, h]

/-- A neutral sentiment estimator (the collaborator defaults of source
lines 82-83). -/
def sentiment0 : String → String → SentimentRecord :=
  fun _ _ => { sentiment_score := 1 / 2, news_count := 0 }

/-- A fetcher whose symbol E yields an empty series and every other symbol
fails outright. -/
def fetchEmptyW : FetchFun :=
  fun sym => if sym = "E" then (some [], none) else (none, none)

/-- Witness for C10: a concrete symbol whose fetched history is empty is
skipped with None. -/
theorem c10_witness :
    analyze_stock fetchEmptyW sentiment0 "2024-01-01" "E" = Except.ok none :=
  c10_none_or_empty_skipped.2.2 fetchEmptyW sentiment0 "2024-01-01" "E" (Or.inr rfl)

/-- The aggregator loop is exactly an in-order filterMap of the per-symbol
success view: each symbol contributes its record when analysis succeeded
and nothing otherwise. -/
lemma analyze_multiple_eq_filterMap (fetch : FetchFun)
    (sentiment : String → String → SentimentRecord) (today : String) :
    ∀ symbols, analyze_multiple_stocks fetch sentiment today symbols =
      symbols.filterMap (successRecord fetch sentiment today) := by
  intro symbols
  induction symbols with
  | nil => rfl
  | cons a l ih =>
      rw [List.filterMap_cons]
      cases h : analyze_stock fetch sentiment today a with
      | error e => simp [analyze_multiple_stocks, successRecord, h, ih]
      | ok v => cases v <;> simp [analyze_multiple_stocks, successRecord, h, ih]

/-- On a non-empty frame the engine can only return a full record (the
empty mapping arises solely from the None/empty guard). -/
lemma calc_some_not_empty (bars : List Bar) (t : TechOutput)
    (hne : bars.isEmpty = false)
    (h : calculate_technical_indicators (some bars) = Except.ok t) :
    ∃ r, t = TechOutput.record r := by
  simp only [calculate_technical_indicators, hne, Bool.false_eq_true,
    if_false] at h
  cases h2 : indicatorRecordOf bars with
  | error e => rw [h2] at h; simp [Except.map] at h
  | ok r => rw [h2] at h; simp [Except.map] at h; exact ⟨r, h.symm⟩

/-- Any record `analyze_stock` actually returns carries a non-empty
indicator record: the empty-history branches return None instead. -/
lemma analyze_stock_record_not_empty (fetch : FetchFun)
    (sentiment : String → String → SentimentRecord) (today symbol : String)
    (r : AnalysisRecord)
    (h : analyze_stock fetch sentiment today symbol = Except.ok (some r)) :
    r.technical_indicators ≠ TechOutput.empty := by
  simp only [analyze_stock] at h
  cases hf : (fetch symbol).1 with
  | none => rw [hf] at h; simp at h
  | some bars =>
      rw [hf] at h
      by_cases he : bars.isEmpty
      · simp [he] at h
      · simp only [he, Bool.false_eq_true, if_false] at h
        cases hc : calculate_technical_indicators (some bars) with
        | error e => rw [hc] at h; simp at h
        | ok td =>
            rw [hc] at h
            simp only [Except.ok.injEq, Option.some.injEq] at h
            obtain ⟨r0, hr0⟩ := calc_some_not_empty bars td
              (Bool.not_eq_true _ ▸ (by simpa using he)) hc
            rw [← h, hr0]
            simp

/-- A fetcher for the three-symbol scenario: AAA and CCC succeed with
25-bar histories, every other symbol (in particular BBB) fails. -/
def fetchABC : FetchFun := fun sym =>
  if sym = "AAA" then
    (some (constBars 25 100 1000),
     some { longName := some "Alpha plc", marketCap := some 5000000, sector := some "Tech" })
  else if sym = "CCC" then (some (decBars 25), none)
  else (none, none)

/-- The Analysis Record the aggregator produces for AAA. -/
def recABC_A : AnalysisRecord :=
  (successRecord fetchABC sentiment0 "2024-01-01" "AAA").getD default

/-- The Analysis Record the aggregator produces for CCC. -/
def recABC_C : AnalysisRecord :=
  (successRecord fetchABC sentiment0 "2024-01-01" "CCC").getD default

/-- C5: the aggregator returns exactly the records of the symbols that
succeeded, in input order (it is an in-order filterMap of the per-symbol
success view); on [AAA, BBB, CCC] with BBB's fetch failing it returns
exactly [AAA's record, CCC's record]; and its output is empty exactly when
every symbol failed. -/
theorem c5_aggregator_order :
    (∀ (fetch : FetchFun) (sentiment : String → String → SentimentRecord)
       (today : String) (symbols : List String),
       analyze_multiple_stocks fetch sentiment today symbols =
         symbols.filterMap (successRecord fetch sentiment today)) ∧
    successRecord fetchABC sentiment0 "2024-01-01" "AAA" = some recABC_A ∧
    successRecord fetchABC sentiment0 "2024-01-01" "BBB" = none ∧
    successRecord fetchABC sentiment0 "2024-01-01" "CCC" = some recABC_C ∧
    analyze_multiple_stocks fetchABC sentiment0 "2024-01-01" ["AAA", "BBB", "CCC"] =
      [recABC_A, recABC_C] ∧
    (∀ (fetch : FetchFun) (sentiment : String → String → SentimentRecord)
       (today : String) (symbols : List String),
       (analyze_multiple_stocks fetch sentiment today symbols = [] ↔
         ∀ x ∈ symbols, successRecord fetch sentiment today x = none)) := by
  refine ⟨analyze_multiple_eq_filterMap, ?_, ?_, ?_, ?_, ?_⟩
  · set_option maxRecDepth 400000 in decide
  · decide
  · set_option maxRecDepth 400000 in decide
  · set_option maxRecDepth 400000 in decide
  · intro fetch sentiment today symbols
    rw [analyze_multiple_eq_filterMap]
    exact List.filterMap_eq_nil_iff

/-- C8: every Analysis Record the aggregator hands downstream has a
non-empty Indicator Record — symbols whose fetch returned empty or missing
data were dropped, never included with empty indicator fields. -/
theorem c8_nonempty_indicators :
    ∀ (fetch : FetchFun) (sentiment : String → String → SentimentRecord)
      (today : String) (symbols : List String) (r : AnalysisRecord),
      r ∈ analyze_multiple_stocks fetch sentiment today symbols →
      r.technical_indicators ≠ TechOutput.empty := by
  intro fetch sentiment today symbols
  induction symbols with
  | nil => intro r h; simp [analyze_multiple_stocks] at h
  | cons a l ih =>
      intro r h
      simp only [analyze_multiple_stocks] at h
      cases hc : analyze_stock fetch sentiment today a with
      | error e => rw [hc] at h; exact ih r h
      | ok v =>
          cases v with
          | none => rw [hc] at h; exact ih r h
          | some r0 =>
              rw [hc] at h
              rcases List.mem_cons.mp h with rfl | hm
              · exact analyze_stock_record_not_empty fetch sentiment today a r hc
              · exact ih r hm

/-- Witness for C8: the concrete record the aggregator produces for AAA
has a non-empty indicator record. -/
theorem c8_witness : recABC_A.technical_indicators ≠ TechOutput.empty :=
  c8_nonempty_indicators fetchABC sentiment0 "2024-01-01" ["AAA"] recABC_A
    (by set_option maxRecDepth 400000 in decide)

/-- The sanitize loop never propagates an error when every pick is a dict:
coercion failures are caught and skip only the offending pick. -/
lemma pickLoop_objs_ok (ps : List (List (String × JVal))) :
    ∃ vs, pickLoop (ps.map JVal.obj) = Except.ok vs := by
  induction ps with
  | nil => exact ⟨[], rfl⟩
  | cons a l ih =>
      obtain ⟨vs, hvs⟩ := ih
      cases h : validate_pick a with
      | ok v => exact ⟨v :: vs, by simp [pickLoop, h, hvs, Except.map]⟩
      | error e => exact ⟨vs, by simp [pickLoop, h, hvs]⟩

/-- C9: every candidate dict whose top-picks field holds a list of pick
dicts drives `validate_recommendations` into the NameError from the
unbound `stock_data` at source line 196 while building the return value,
so no such candidate ever yields a validated Recommendation Set. -/
theorem c9_unbound_name (recs : List (String × JVal))
    (picks : List (List (String × JVal)))
    (h : dictGet recs "top_10_picks" = some (JVal.arr (picks.map JVal.obj))) :
    validate_recommendations (some recs) = Except.error PyErr.nameError := by
  have hne : recs.isEmpty = false := by
    cases recs with
    | nil => simp [dictGet] at h
    | cons a l => rfl
  simp only [validate_recommendations, hne, Bool.false_eq_true, if_false, h]
  rw [← List.map_take]
  obtain ⟨vs, hvs⟩ := pickLoop_objs_ok (picks.take 10)
  rw [hvs]

/-- Witness for C9: a concrete candidate with a (here empty) top-picks
list raises NameError. -/
theorem c9_witness :
    validate_recommendations (some [("top_10_picks", JVal.arr [])]) =
      Except.error PyErr.nameError :=
  c9_unbound_name [("top_10_picks", JVal.arr [])] [] rfl

/-- A well-formed pick dict with the given rank, target price and
confidence score. -/
def mkPickQ (r tp cs : ℚ) : List (String × JVal) :=
  [("rank", JVal.num r), ("target_price", JVal.num tp), ("confidence_score", JVal.num cs)]

/-- The sanitized dict the validator loop builds from `mkPickQ r tp cs`
(source lines 174-185, with every defaulted field). -/
def sanitizedPickQ (r tp cs : ℚ) : List (String × JVal) :=
  [("rank", JVal.num r), ("symbol", JVal.str ""), ("company_name", JVal.str ""),
   ("recommendation", JVal.str "HOLD"), ("target_price", JVal.num tp),
   ("confidence_score", JVal.num cs), ("key_reasons", JVal.arr []),
   ("risk_level", JVal.str "MEDIUM"), ("time_horizon", JVal.str "1-3 days"),
   ("expected_return", JVal.str "0%")]

/-- Fifteen well-formed picks with ranks 1 to 15 in order. -/
def picks15 : List (List (String × JVal)) :=
  (List.range 15).map (fun i => mkPickQ ((i : ℚ) + 1) 100 5)

/-- A candidate Recommendation Set with 15 picks. -/
def cand15 : List (String × JVal) :=
  [("top_10_picks", JVal.arr (picks15.map JVal.obj))]

/-- C6: the truncation logic (the slice at source line 172 feeding the
loop) keeps exactly the first 10 of the 15 picks in input order, not
re-sorted — but the function then raises NameError (unbound `stock_data`,
source line 196) instead of returning that 10-pick set, so the claimed
return never happens. -/
theorem c6_truncates_to_first_10 :
    pickLoop ((picks15.map JVal.obj).take 10) =
      Except.ok ((List.range 10).map (fun i => sanitizedPickQ ((i : ℚ) + 1) 100 5)) ∧
    validate_recommendations (some cand15) = Except.error PyErr.nameError := by
  constructor
  · rfl
  · rfl

/-- A pick whose target_price is the non-numeric string N/A. -/
def pickNA : List (String × JVal) :=
  [("rank", JVal.num 1), ("target_price", JVal.str "N/A"), ("confidence_score", JVal.num 5)]

/-- A candidate whose first pick has the non-coercible target price. -/
def candNA : List (String × JVal) :=
  [("top_10_picks", JVal.arr ([pickNA, mkPickQ 2 50 6, mkPickQ 3 60 7].map JVal.obj))]

/-- C7: the loop drops the single pick whose target_price fails float
coercion and keeps the rest, and the early returns yield None exactly for
a falsy candidate or one without the top-picks field — but for a candidate
that has the field the function then raises NameError instead of returning
the kept picks, so the claimed behavior never completes. -/
theorem c7_drops_bad_pick :
    pickLoop ([pickNA, mkPickQ 2 50 6, mkPickQ 3 60 7].map JVal.obj) =
      Except.ok [sanitizedPickQ 2 50 6, sanitizedPickQ 3 60 7] ∧
    validate_recommendations (some candNA) = Except.error PyErr.nameError ∧
    validate_recommendations none = Except.ok none ∧
    validate_recommendations (some [("market_overview", JVal.str "calm")]) = Except.ok none ∧
    validate_recommendations (some []) = Except.ok none := by
  refine ⟨rfl, rfl, rfl, rfl, rfl⟩

/-- Length of `pdDiff` matches its input. -/
lemma pdDiff_length (xs : List ℚ) : (pdDiff xs).length = xs.length := by
  simp [pdDiff]

/-- Length of the pre-rolling gain series. -/
lemma gainElems_length (close : List ℚ) : (gainElems close).length = close.length := by
  simp [gainElems, deltaSeries, pdDiff]

/-- Length of the pre-rolling loss series. -/
lemma lossElems_length (close : List ℚ) : (lossElems close).length = close.length := by
  simp [lossElems, deltaSeries, pdDiff]

/-- The last element of a map over `List.range n` is the value at `n - 1`. -/
lemma lastD_range_map {α : Type} (n : Nat) (f : Nat → α) (d : α) (h : 0 < n) :
    lastD ((List.range n).map f) d = f (n - 1) := by
  obtain ⟨m, rfl⟩ := Nat.exists_eq_succ_of_ne_zero h.ne'
  rw [List.range_succ, List.map_append]
  simp [lastD, List.getLast?_concat]

/-- Zipping two maps over the same list is a single pointwise map. -/
lemma zipWith_map_same {α β γ δ : Type} (f : β → γ → δ) (g : α → β) (h : α → γ) :
    ∀ l : List α, List.zipWith f (l.map g) (l.map h) = l.map (fun x => f (g x) (h x))
  | [] => rfl
  | a :: l => by simp [zipWith_map_same f g h l]

/-- The gain rolling series as an indexed map. -/
lemma gainSeries_eq (close : List ℚ) :
    gainSeries close = (List.range close.length).map (rollingAt 14 (gainElems close)) := by
  rw [gainSeries, rollingMean, gainElems_length]

/-- The loss rolling series as an indexed map. -/
lemma lossSeries_eq (close : List ℚ) :
    lossSeries close = (List.range close.length).map (rollingAt 14 (lossElems close)) := by
  rw [lossSeries, rollingMean, lossElems_length]

/-- The rs series as an indexed map. -/
lemma rsSeries_eq (close : List ℚ) :
    rsSeries close = (List.range close.length).map
      (fun i => EF.div (rollingAt 14 (gainElems close) i) (rollingAt 14 (lossElems close) i)) := by
  rw [rsSeries, gainSeries_eq, lossSeries_eq, zipWith_map_same]

/-- The rsi series as an indexed map. -/
lemma rsiSeries_eq (close : List ℚ) :
    rsiSeries close = (List.range close.length).map
      (fun i => EF.sub (EF.fin 100) (EF.div (EF.fin 100) (EF.add (EF.fin 1)
        (EF.div (rollingAt 14 (gainElems close) i) (rollingAt 14 (lossElems close) i))))) := by
  rw [rsiSeries, rsSeries_eq, List.map_map]
  rfl

/-- The last rsi value in terms of the last rolling gain and loss. -/
lemma rsiSeries_lastD (close : List ℚ) (h : 0 < close.length) :
    lastD (rsiSeries close) (EF.fin 0) =
      EF.sub (EF.fin 100) (EF.div (EF.fin 100) (EF.add (EF.fin 1)
        (EF.div (rollingAt 14 (gainElems close) (close.length - 1))
                (rollingAt 14 (lossElems close) (close.length - 1))))) := by
  rw [rsiSeries_eq, lastD_range_map _ _ _ h]

/-- The last rolling average loss in indexed form. -/
lemma lossSeries_lastD (close : List ℚ) (h : 0 < close.length) :
    lastD (lossSeries close) (EF.fin 0) =
      rollingAt 14 (lossElems close) (close.length - 1) := by
  rw [lossSeries_eq, lastD_range_map _ _ _ h]

/-- Every element of a diff series is NaN or finite. -/
lemma pdDiff_mem (xs : List ℚ) : ∀ u ∈ pdDiff xs, u = EF.nan ∨ ∃ b, u = EF.fin b := by
  intro u hu
  obtain ⟨i, _, rfl⟩ := List.mem_map.mp hu
  by_cases h : i = 0 <;> simp [h]

/-- Every element of the pre-rolling gain series is a nonnegative finite
value (positive deltas survive, everything else becomes 0). -/
lemma gainElems_fin_nonneg (close : List ℚ) :
    ∀ v ∈ gainElems close, ∃ a, 0 ≤ a ∧ v = EF.fin a := by
  intro v hv
  obtain ⟨u, hu, rfl⟩ := List.mem_map.mp hv
  rcases pdDiff_mem close u hu with rfl | ⟨b, rfl⟩
  · exact ⟨0, le_refl 0, by simp [EF.gt0]⟩
  · by_cases hb : 0 < b
    · exact ⟨b, hb.le, by simp [EF.gt0, hb]⟩
    · exact ⟨0, le_refl 0, by simp [EF.gt0, hb]⟩

/-- A full rolling window over nonnegative finite values has a nonnegative
finite mean at the last index. -/
lemma rollingAt_last_fin (xs : List EF) (hlen : 14 ≤ xs.length)
    (hall : ∀ v ∈ xs, ∃ a, 0 ≤ a ∧ v = EF.fin a) :
    ∃ g, 0 ≤ g ∧ rollingAt 14 xs (xs.length - 1) = EF.fin g := by
  have h1 : xs.length - 1 + 1 = xs.length := by omega
  have hsub : ∀ v ∈ windowSlice 14 (xs.length - 1) xs, v ∈ xs := by
    intro v hv
    rw [windowSlice] at hv
    exact List.take_subset _ _ (List.drop_subset _ _ hv)
  have hfin : (windowSlice 14 (xs.length - 1) xs).all EF.isFin = true := by
    rw [List.all_eq_true]
    intro v hv
    obtain ⟨a, _, rfl⟩ := hall v (hsub v hv)
    rfl
  simp only [rollingAt, h1, if_neg (by omega : ¬ xs.length < 14), hfin, if_true]
  refine ⟨((windowSlice 14 (xs.length - 1) xs).map EF.toQ).sum / (14 : ℚ), ?_, rfl⟩
  apply div_nonneg _ (by norm_num)
  apply List.sum_nonneg
  intro x hx
  obtain ⟨v, hv, rfl⟩ := List.mem_map.mp hx
  obtain ⟨a, ha, rfl⟩ := hall v (hsub v hv)
  simpa [EF.toQ] using ha

/-- In-range negative indexing succeeds. -/
lemma ilocNegQ_ok (xs : List ℚ) (k : Nat) (h : k ≤ xs.length) (h0 : 0 < k) :
    ilocNegQ xs k = Except.ok (xs.getD (xs.length - k) 0) := by
  simp [ilocNegQ, h, h0]

/-- With at least 21 bars the record computation succeeds, and its rsi
field is the last value of the rsi series. -/
lemma indicatorRecordOf_ok (bars : List Bar) (h : 21 ≤ bars.length) :
    ∃ r, indicatorRecordOf bars = Except.ok r ∧
      r.rsi = lastD (rsiSeries (bars.map Bar.close)) (EF.fin 0) := by
  have hlen : (bars.map Bar.close).length = bars.length := List.length_map _ _
  simp only [indicatorRecordOf]
  rw [ilocNegQ_ok _ 6 (by omega) (by norm_num), ilocNegQ_ok _ 21 (by omega) (by norm_num)]
  exact ⟨_, rfl, rfl⟩

/-- With at least 21 bars the engine returns a record whose rsi field is
the last value of the rsi series. -/
lemma calc_ok_rsi (bars : List Bar) (h : 21 ≤ bars.length) :
    ∃ r, calculate_technical_indicators (some bars) = Except.ok (TechOutput.record r) ∧
      r.rsi = lastD (rsiSeries (bars.map Bar.close)) (EF.fin 0) := by
  have hne : bars.isEmpty = false := by
    cases bars with
    | nil => simp at h
    | cons a l => rfl
  obtain ⟨r, hr, hrsi⟩ := indicatorRecordOf_ok bars h
  refine ⟨r, ?_, hrsi⟩
  simp only [calculate_technical_indicators, hne, Bool.false_eq_true, if_false, hr, Except.map]

/-- C4: whenever the engine actually returns (which requires at least 21
bars, so the 14-period RSI window is fully populated) and the 14-period
average loss is a strictly positive number, the returned rsi value is a
finite number in the closed interval [0, 100]. -/
theorem c4_rsi_in_range (bars : List Bar) (q : ℚ)
    (h21 : 21 ≤ bars.length)
    (hloss : lastD (lossSeries (bars.map Bar.close)) (EF.fin 0) = EF.fin q)
    (hq : 0 < q) :
    ∃ r x, calculate_technical_indicators (some bars) = Except.ok (TechOutput.record r) ∧
      r.rsi = EF.fin x ∧ 0 ≤ x ∧ x ≤ 100 := by
  have hlen : (bars.map Bar.close).length = bars.length := List.length_map _ _
  have hpos : 0 < (bars.map Bar.close).length := by omega
  obtain ⟨r, hr, hrsi⟩ := calc_ok_rsi bars h21
  obtain ⟨g, hg0, hg⟩ := rollingAt_last_fin (gainElems (bars.map Bar.close))
    (by rw [gainElems_length]; omega) (gainElems_fin_nonneg _)
  rw [gainElems_length] at hg
  rw [lossSeries_lastD _ hpos] at hloss
  rw [rsiSeries_lastD _ hpos, hg, hloss] at hrsi
  have hgq : 0 ≤ g / q := div_nonneg hg0 hq.le
  have hden : (0 : ℚ) < 1 + g / q := by linarith
  have hdiv1 : EF.div (EF.fin g) (EF.fin q) = EF.fin (g / q) := by
    simp [EF.div, hq.ne']
  have hadd : EF.add (EF.fin 1) (EF.fin (g / q)) = EF.fin (1 + g / q) := by
    simp [EF.add]
  have hdiv2 : EF.div (EF.fin 100) (EF.fin (1 + g / q)) = EF.fin (100 / (1 + g / q)) := by
    simp [EF.div, hden.ne']
  have hsub : EF.sub (EF.fin 100) (EF.fin (100 / (1 + g / q))) =
      EF.fin (100 - 100 / (1 + g / q)) := by
    simp [EF.sub, EF.add, EF.neg, sub_eq_add_neg]
  rw [hdiv1, hadd, hdiv2, hsub] at hrsi
  refine ⟨r, 100 - 100 / (1 + g / q), hr, hrsi, ?_, ?_⟩
  · have hle : 100 / (1 + g / q) ≤ 100 := div_le_self (by norm_num) (by linarith)
    linarith
  · have h0 : 0 ≤ 100 / (1 + g / q) := div_nonneg (by norm_num) hden.le
    linarith

/-- Witness for C4: on 21 strictly decreasing bars the average loss is the
positive number 1 and the returned rsi is indeed in [0, 100]. -/
theorem c4_witness :
    ∃ r x, calculate_technical_indicators (some (decBars 21)) =
        Except.ok (TechOutput.record r) ∧
      r.rsi = EF.fin x ∧ 0 ≤ x ∧ x ≤ 100 :=
  c4_rsi_in_range (decBars 21) 1 (by decide)
    (by set_option maxRecDepth 400000 in decide) (by norm_num)
